import Mathlib

/-!
# Verification of `py-androidbuild` (`src/android/tools.py`)

Shallow embedding of the process-invocation facade: the shared invoker
(`Program.__call__`), the conditional argument builder (`Program.extend_args`),
the failure record (`ProgramFailedError`) and the nine tool adapters.

The embedding is purely functional: the ambient platform (`sys.platform`), the
ambient process environment (`os.environ`) and the behaviour of the launched
child process (exit code plus the bytes it wrote to its stdout/stderr pipes)
are explicit parameters, and an invocation yields both the launch request that
would be handed to `subprocess.Popen` (argv, `shell=` flag, environment) and
the Python-level result (the returned command-line string, or the raised
`ProgramFailedError`).
-/

namespace AndroidBuild

/-- The opaque SDK context: the only attribute the module reads is `sdk_dir`
(`self.framework.sdk_dir`, in `ApkBuilder.__call__`). -/
structure Framework where
  sdk_dir : String
  deriving Repr, DecidableEq

/-- `Program.__init__`: a tool holds its executable and an optional framework
(default `None`). -/
structure Program where
  executable : String
  framework : Option Framework
  deriving Repr, DecidableEq

/-- Observable behaviour of the child process: its exit code and the bytes it
wrote to its stdout and stderr pipes (read after `process.wait()`). -/
structure ProcResult where
  returncode : Int
  stdout : String
  stderr : String
  deriving Repr, DecidableEq

/-- The fields stored by `ProgramFailedError.__init__`. -/
structure ProgramFailedError where
  cmdline : String
  returncode : Int
  stdout : Option String
  stderr : Option String
  deriving Repr, DecidableEq

/-- `ProgramFailedError.__init__(cmdline, returncode, stdout=None, stderr=None)`:
when `cmdline` is a tuple or list it is joined with spaces; the remaining
arguments are stored as given. -/
def ProgramFailedError.init (cmdline : List String ⊕ String) (returncode : Int)
    (stdout : Option String) (stderr : Option String) :
    ProgramFailedError :=
  { cmdline :=
      match cmdline with
      | .inl parts => String.intercalate " " parts
      | .inr s => s
    returncode := returncode
    stdout := stdout
    stderr := stderr }

/-- `Program.extend_args(args, new, condition=True)`: extend `args` with `new`,
but only if `new` contains no `None` item and `condition` holds.  Absent
fragments are `none`; under the guard `filterMap id` drops nothing, it merely
strips the `some` wrappers. -/
def Program.extend_args (args : List String) (new : List (Option String))
    (condition : Bool) : List String :=
  if !(new.any (·.isNone)) && condition then args ++ new.filterMap id else args

/-- Python truthiness of an optional-string parameter (used where the source
writes `if overwrite_version_code:` or passes a parameter as the `condition`
argument of `extend_args`): `None` and the empty string are falsy. -/
def truthyOpt : Option String → Bool
  | none => false
  | some s => !s.isEmpty

/-- Python `"%s" % x` for an optional string: `None` renders as `"None"`. -/
def pyFormat : Option String → String
  | none => "None"
  | some s => s

/-- Lookup in a `str -> str` dict modelled as an association list with unique
keys (`d[k]`, or `d.get(k)`). -/
def dictGet (d : List (String × String)) (k : String) : Option String :=
  (d.find? (fun p => p.1 == k)).map (·.2)

/-- Setting one key of a dict: replace the value in place if the key is
present, otherwise append the new binding (Python dicts preserve insertion
order). -/
def dictSet (d : List (String × String)) (k v : String) :
    List (String × String) :=
  match d with
  | [] => [(k, v)]
  | (k', v') :: rest =>
      if k' == k then (k, v) :: rest else (k', v') :: dictSet rest k v

/-- `d.update(u)`: fold `dictSet` over the bindings of `u`. -/
def dictUpdate (d u : List (String × String)) : List (String × String) :=
  u.foldl (fun acc p => dictSet acc p.1 p.2) d

/-- The argv actually handed to `subprocess.Popen`:
`cmdline = [self.executable] + arguments`, and if `shell` was requested on a
platform other than `win32`, `cmdline.insert(0, '/bin/sh')`. -/
def effectiveArgv (prog : Program) (arguments : List String) (shell : Bool)
    (platform : String) : List String :=
  let cmdline := prog.executable :: arguments
  if shell && !(platform == "win32") then "/bin/sh" :: cmdline else cmdline

/-- The launch request handed to `subprocess.Popen`: the argv, the `shell=`
keyword (`True` exactly on `win32`), and the environment given to the child. -/
structure LaunchSpec where
  argv : List String
  popenShell : Bool
  env : List (String × String)
  deriving Repr, DecidableEq

/-- Everything observable about one `Program.__call__` invocation. -/
structure CallOutcome where
  launch : LaunchSpec
  /-- `os.environ` after the call: the source copies it (`os.environ.copy()`)
  and updates only the copy, so it is returned unchanged. -/
  ambientAfter : List (String × String)
  result : Except ProgramFailedError String
  deriving Repr

/-- `Program.__call__(arguments, env=None, shell=False)`, evaluated against an
ambient platform and environment and a given child-process behaviour.
Returns the command-line string on exit code `0` and raises
`ProgramFailedError(cmdline_str, returncode, stderr_bytes, stdout_bytes)`
otherwise. -/
def Program.call (prog : Program) (arguments : List String)
    (env : Option (List (String × String))) (shell : Bool)
    (platform : String) (ambient : List (String × String))
    (proc : ProcResult) : CallOutcome :=
  let cmdline := effectiveArgv prog arguments shell platform
  let cmdline_str := String.intercalate " " cmdline
  let custom_env := dictUpdate ambient (env.getD [])
  { launch := { argv := cmdline, popenShell := platform == "win32", env := custom_env }
    ambientAfter := ambient
    result :=
      if proc.returncode ≠ 0 then
        .error (ProgramFailedError.init (.inr cmdline_str)
          proc.returncode (some proc.stderr) (some proc.stdout))
      else
        .ok cmdline_str }

/-! ## Tool adapters

Each adapter's argument construction (`<Tool>.__call__` up to the delegation
to `Program.__call__`) is embedded as `<tool>Args`, and the full call — the
argument construction plus the delegation — as `<Tool>.call`.  The ambient
platform/environment and the child behaviour are threaded through exactly as
for `Program.call`.  Parameters follow the Python signatures: optional scalar
parameters are `Option String` (Python `None` being `none`), parameters the
source uses only for truthiness are `Bool`. -/

/-- `Aapt.__call__` argument construction. -/
def aaptArgs (command : String) (manifest resource_dir asset_dir : Option String)
    (includes : List String) (apk_output r_output : Option String)
    (configurations rename_manifest_package : Option String)
    (overwrite_version_code overwrite_version_name : Option String)
    (make_dirs overwrite : Bool) (extra_args : List String) : List String :=
  let args := [command]
  let args := Program.extend_args args [some "-m"] make_dirs
  let args := Program.extend_args args [some "-M", manifest] true
  let args := Program.extend_args args [some "-S", resource_dir] true
  let args := Program.extend_args args [some "-A", asset_dir] true
  let args := Program.extend_args args [some "-c", configurations] true
  let args :=
    if truthyOpt overwrite_version_code then
      Program.extend_args args
        [some "--version-code", some (pyFormat overwrite_version_code)] true
    else args
  let args := Program.extend_args args [some "--version-code", overwrite_version_name] true
  let args := Program.extend_args args
    [some "--rename-manifest-package", rename_manifest_package] true
  let args := includes.foldl (fun a item => Program.extend_args a [some "-I", some item] true) args
  let args := Program.extend_args args [some "-F", apk_output] true
  let args := Program.extend_args args [some "-J", r_output] true
  let args := Program.extend_args args [some "-f"] overwrite
  Program.extend_args args (extra_args.map some) true

/-- `Aapt.__call__`: builds the argument list and delegates with no
environment overlay and no shell wrapper. -/
def Aapt.call (prog : Program) (command : String)
    (manifest resource_dir asset_dir : Option String) (includes : List String)
    (apk_output r_output configurations rename_manifest_package : Option String)
    (overwrite_version_code overwrite_version_name : Option String)
    (make_dirs overwrite : Bool) (extra_args : List String)
    (platform : String) (ambient : List (String × String)) (proc : ProcResult) :
    CallOutcome :=
  Program.call prog
    (aaptArgs command manifest resource_dir asset_dir includes apk_output
      r_output configurations rename_manifest_package overwrite_version_code
      overwrite_version_name make_dirs overwrite extra_args)
    none false platform ambient proc

/-- `Aidl.__call__` argument construction: `-p%s`/`-I%s`/`-o%s` fragments,
each gated on the truthiness of its parameter, then the input file. -/
def aidlArgs (aidl_file : String)
    (preprocessed search_path output_folder : Option String) : List String :=
  let args := []
  let args := Program.extend_args args [some ("-p" ++ pyFormat preprocessed)] (truthyOpt preprocessed)
  let args := Program.extend_args args [some ("-I" ++ pyFormat search_path)] (truthyOpt search_path)
  let args := Program.extend_args args [some ("-o" ++ pyFormat output_folder)] (truthyOpt output_folder)
  Program.extend_args args [some aidl_file] true

/-- `Aidl.__call__`. -/
def Aidl.call (prog : Program) (aidl_file : String)
    (preprocessed search_path output_folder : Option String)
    (platform : String) (ambient : List (String × String)) (proc : ProcResult) :
    CallOutcome :=
  Program.call prog (aidlArgs aidl_file preprocessed search_path output_folder)
    none false platform ambient proc

/-- `LlvmRs.__call__` argument construction. -/
def llvmRsArgs (resource_dir resource_gen_dir : Option String)
    (source_files include_dirs : List String) : List String :=
  let args := []
  let args := include_dirs.foldl (fun a inc => Program.extend_args a [some "-I", some inc] true) args
  let args := Program.extend_args args [some "-o", resource_dir] true
  let args := Program.extend_args args [some "-java-reflection-path-base", resource_gen_dir] true
  source_files.foldl (fun a filename => Program.extend_args a [some filename] true) args

/-- `LlvmRs.__call__`. -/
def LlvmRs.call (prog : Program) (resource_dir resource_gen_dir : Option String)
    (source_files include_dirs : List String)
    (platform : String) (ambient : List (String × String)) (proc : ProcResult) :
    CallOutcome :=
  Program.call prog (llvmRsArgs resource_dir resource_gen_dir source_files include_dirs)
    none false platform ambient proc

/-- `NdkBuild.__call__` argument construction. -/
def ndkBuildArgs (project_path : Option String) : List String :=
  Program.extend_args [] [some "-C", project_path] true

/-- `NdkBuild.__call__`. -/
def NdkBuild.call (prog : Program) (project_path : Option String)
    (platform : String) (ambient : List (String × String)) (proc : ProcResult) :
    CallOutcome :=
  Program.call prog (ndkBuildArgs project_path) none false platform ambient proc

/-- `NdkClean.__call__` argument construction. -/
def ndkCleanArgs (project_path : Option String) : List String :=
  let args := Program.extend_args [] [some "clean"] true
  Program.extend_args args [some "-C", project_path] true

/-- `NdkClean.__call__`. -/
def NdkClean.call (prog : Program) (project_path : Option String)
    (platform : String) (ambient : List (String × String)) (proc : ProcResult) :
    CallOutcome :=
  Program.call prog (ndkCleanArgs project_path) none false platform ambient proc

/-- `JavaC.__call__` argument construction: note the classpath is joined with
the literal `":"` and gated on the truthiness (non-emptiness) of the list,
and that either `-g` or `-g:none` is always present. -/
def javacArgs (files : List String) (destdir encoding target : Option String)
    (classpath : List String) (bootclasspath : Option String)
    (debug : Bool) : List String :=
  let args := []
  let args := Program.extend_args args [some "-encoding", encoding] true
  let args := Program.extend_args args [some "-target", target] true
  let args := Program.extend_args args [some "-source", target] true
  let args := Program.extend_args args [some "-d", destdir] true
  let args := Program.extend_args args
    [some "-classpath", some (String.intercalate ":" classpath)] (!classpath.isEmpty)
  let args := Program.extend_args args [some "-bootclasspath", bootclasspath] true
  let args := args ++ [if debug then "-g" else "-g:none"]
  args ++ files

/-- `JavaC.__call__`. -/
def JavaC.call (prog : Program) (files : List String)
    (destdir encoding target : Option String) (classpath : List String)
    (bootclasspath : Option String) (debug : Bool)
    (platform : String) (ambient : List (String × String)) (proc : ProcResult) :
    CallOutcome :=
  Program.call prog (javacArgs files destdir encoding target classpath bootclasspath debug)
    none false platform ambient proc

/-- `Dx.__call__` argument construction: `['--dex']`, then
`extend_args(args, ["--output=%s" % output])` — the fragment is built by
`%`-formatting *before* the `None` check, so it is never `None` itself. -/
def dxArgs (files : List String) (output : Option String) : List String :=
  let args := ["--dex"]
  let args := Program.extend_args args [some ("--output=" ++ pyFormat output)] true
  args ++ files

/-- `Dx.__call__`. -/
def Dx.call (prog : Program) (files : List String) (output : Option String)
    (platform : String) (ambient : List (String × String)) (proc : ProcResult) :
    CallOutcome :=
  Program.call prog (dxArgs files output) none false platform ambient proc

/-- `ApkBuilder.__call__` argument construction. -/
def apkBuilderArgs (outputfile : String) (dex : Option String)
    (zips source_dirs jar_paths native_dirs : List String) : List String :=
  let args := [outputfile]
  let args := args ++ ["-u"]
  let args := Program.extend_args args [some "-f", dex] true
  let args := zips.foldl (fun a z => a ++ ["-z", z]) args
  let args := source_dirs.foldl (fun a source_dir => a ++ ["-rf", source_dir]) args
  let args := jar_paths.foldl (fun a item => a ++ ["-rj", item]) args
  native_dirs.foldl (fun a item => a ++ ["-nf", item]) args

/-- A Python exception other than `ProgramFailedError`. -/
inductive PyError where
  | attributeError (message : String)
  deriving Repr, DecidableEq

/-- `ApkBuilder.__call__`: the only adapter that reads `self.framework` and
the only delegation passing an environment overlay and `shell=True`.
Evaluating `self.framework.sdk_dir` on the default `framework=None` raises
`AttributeError` while the overlay dict literal is being built, i.e. before
`Program.__call__` (and hence any process launch) is reached. -/
def ApkBuilder.call (prog : Program) (outputfile : String) (dex : Option String)
    (zips source_dirs jar_paths native_dirs : List String)
    (platform : String) (ambient : List (String × String)) (proc : ProcResult) :
    Except PyError CallOutcome :=
  match prog.framework with
  | none => .error (.attributeError "NoneType object has no attribute sdk_dir")
  | some fw =>
      .ok (Program.call prog
        (apkBuilderArgs outputfile dex zips source_dirs jar_paths native_dirs)
        (some [("ANDROID_SDK_DIR", fw.sdk_dir)]) true platform ambient proc)

/-- `JarSigner.__call__` argument construction: all fragments unconditional.
(The Python parameter `alias` is renamed `key_alias` here because `alias` is a
Lean keyword.) -/
def jarSignerArgs (jarfile keystore key_alias password : String) : List String :=
  let args := []
  let args := args ++ ["-keystore", keystore]
  let args := args ++ ["-storepass", password]
  let args := args ++ ["-digestalg", "SHA1"]
  let args := args ++ ["-sigalg", "MD5withRSA"]
  let args := args ++ [jarfile]
  args ++ [key_alias]

/-- `JarSigner.__call__`. -/
def JarSigner.call (prog : Program) (jarfile keystore key_alias password : String)
    (platform : String) (ambient : List (String × String)) (proc : ProcResult) :
    CallOutcome :=
  Program.call prog (jarSignerArgs jarfile keystore key_alias password)
    none false platform ambient proc

/-- `ZipAlign.__call__` argument construction. -/
def zipAlignArgs (infile outfile align : String) (force : Bool) : List String :=
  let args := []
  let args := Program.extend_args args [some "-f"] force
  let args := args ++ [align]
  let args := args ++ [infile]
  args ++ [outfile]

/-- `ZipAlign.__call__`. -/
def ZipAlign.call (prog : Program) (infile outfile align : String) (force : Bool)
    (platform : String) (ambient : List (String × String)) (proc : ProcResult) :
    CallOutcome :=
  Program.call prog (zipAlignArgs infile outfile align force)
    none false platform ambient proc

/-- Python's `os.pathsep` — the platform path separator the specification's
classpath sentence refers to: `";"` on the Windows family, `":"` elsewhere. -/
def os_pathsep (platform : String) : String :=
  if platform == "win32" then ";" else ":"

/-! ## Helper lemmas -/

theorem mem_extend_args {x : String} {args : List String}
    {new : List (Option String)} {condition : Bool}
    (h : x ∈ Program.extend_args args new condition) :
    x ∈ args ∨ some x ∈ new := by
  unfold Program.extend_args at h
  split at h
  · rcases List.mem_append.1 h with h | h
    · exact Or.inl h
    · obtain ⟨a, ha, hax⟩ := List.mem_filterMap.1 h
      have ha2 : a = some x := hax
      exact Or.inr (ha2 ▸ ha)
  · exact Or.inl h

theorem extend_args_eq_append (args : List String) (new : List (Option String))
    (condition : Bool) :
    ∃ t, Program.extend_args args new condition = args ++ t := by
  unfold Program.extend_args
  split
  · exact ⟨_, rfl⟩
  · exact ⟨[], by simp⟩

theorem length_filterMap_id_of_no_none (new : List (Option String))
    (h : new.any (·.isNone) = false) :
    (new.filterMap id).length = new.length := by
  induction new with
  | nil => rfl
  | cons o rest ih =>
      cases o with
      | none => simp at h
      | some a =>
          simp only [List.any_cons, Bool.or_eq_false_iff] at h
          simp [List.filterMap_cons, ih h.2]

/-- `l` holds the fragment group `mid` contiguously. -/
def containsChunk (l mid : List String) : Prop :=
  ∃ pre post, l = pre ++ mid ++ post

theorem containsChunk_extend (args : List String) (new : List (Option String))
    (condition : Bool) (mid : List String) (h : containsChunk args mid) :
    containsChunk (Program.extend_args args new condition) mid := by
  obtain ⟨pre, post, rfl⟩ := h
  obtain ⟨t, ht⟩ := extend_args_eq_append (pre ++ mid ++ post) new condition
  exact ⟨pre, post ++ t, by rw [ht]; simp [List.append_assoc]⟩

theorem containsChunk_foldl (g : String → List (Option String))
    (items : List String) (args mid : List String) (h : containsChunk args mid) :
    containsChunk
      (items.foldl (fun a item => Program.extend_args a (g item) true) args) mid := by
  induction items generalizing args with
  | nil => exact h
  | cons i is ih => exact ih _ (containsChunk_extend _ _ _ _ h)

theorem mem_foldl_extend (g : String → List (Option String)) {x : String}
    (items : List String) (args : List String)
    (h : x ∈ items.foldl (fun a item => Program.extend_args a (g item) true) args) :
    x ∈ args ∨ ∃ i ∈ items, some x ∈ g i := by
  induction items generalizing args with
  | nil => exact Or.inl h
  | cons i is ih =>
      rcases ih _ h with h | ⟨j, hj, hxj⟩
      · rcases mem_extend_args h with h | h
        · exact Or.inl h
        · exact Or.inr ⟨i, by simp, h⟩
      · exact Or.inr ⟨j, by simp [hj], hxj⟩

theorem truthyOpt_eq_some (o : Option String) (h : truthyOpt o = true) :
    o = some (pyFormat o) := by
  cases o with
  | none => simp [truthyOpt] at h
  | some s => rfl

theorem dictGet_cons (k₀ : String) (v₀ : String) (rest : List (String × String))
    (k : String) :
    dictGet ((k₀, v₀) :: rest) k = if k₀ == k then some v₀ else dictGet rest k := by
  simp only [dictGet, List.find?]
  cases hb : (k₀ == k) <;> simp [hb]

theorem dictGet_dictSet_self (d : List (String × String)) (k v : String) :
    dictGet (dictSet d k v) k = some v := by
  induction d with
  | nil => simp [dictSet, dictGet_cons]
  | cons p rest ih =>
      obtain ⟨k₀, v₀⟩ := p
      unfold dictSet
      cases hb : (k₀ == k) <;> simp [hb, dictGet_cons, ih]

theorem dictGet_dictSet_ne (d : List (String × String)) (k v k' : String)
    (h : k' ≠ k) : dictGet (dictSet d k v) k' = dictGet d k' := by
  have hb : (k == k') = false := beq_eq_false_iff_ne.2 (Ne.symm h)
  induction d with
  | nil => simp [dictSet, dictGet_cons, hb]
  | cons p rest ih =>
      obtain ⟨k₀, v₀⟩ := p
      unfold dictSet
      cases hb₀ : (k₀ == k) with
      | true =>
          have hk₀ : k₀ = k := by simpa using hb₀
          subst hk₀
          simp [dictGet_cons, hb]
      | false => simp [dictGet_cons, hb₀, ih]

theorem dictGet_update_not_mem (d u : List (String × String)) (k : String)
    (h : ∀ p ∈ u, p.1 ≠ k) :
    dictGet (dictUpdate d u) k = dictGet d k := by
  induction u generalizing d with
  | nil => rfl
  | cons p rest ih =>
      show dictGet (dictUpdate (dictSet d p.1 p.2) rest) k = dictGet d k
      rw [ih (dictSet d p.1 p.2) (fun q hq => h q (by simp [hq])),
        dictGet_dictSet_ne _ _ _ _ (Ne.symm (h p (by simp)))]

theorem dictGet_dictUpdate (d u : List (String × String)) (k : String)
    (hnd : (u.map Prod.fst).Nodup) :
    dictGet (dictUpdate d u) k =
      match dictGet u k with
      | some v => some v
      | none => dictGet d k := by
  induction u generalizing d with
  | nil => rfl
  | cons p rest ih =>
      obtain ⟨k₀, v₀⟩ := p
      simp only [List.map_cons, List.nodup_cons] at hnd
      obtain ⟨hk₀, hrest⟩ := hnd
      show dictGet (dictUpdate (dictSet d k₀ v₀) rest) k = _
      by_cases hk : k₀ = k
      · subst hk
        rw [dictGet_update_not_mem _ _ _
            (fun q hq heq => hk₀ (by rw [← heq]; exact List.mem_map_of_mem Prod.fst hq)),
          dictGet_dictSet_self]
        simp [dictGet_cons]
      · have hb : (k₀ == k) = false := beq_eq_false_iff_ne.2 hk
        rw [ih (dictSet d k₀ v₀) hrest, dictGet_dictSet_ne _ _ _ _ (Ne.symm hk)]
        simp [dictGet_cons, hb]

theorem intercalate_go_append (p acc s : String) (as : List String) :
    String.intercalate.go (p ++ acc) s as = p ++ String.intercalate.go acc s as := by
  induction as generalizing acc with
  | nil => rfl
  | cons a as ih =>
      show String.intercalate.go ((p ++ acc) ++ s ++ a) s as
        = p ++ String.intercalate.go ((acc ++ s) ++ a) s as
      rw [String.append_assoc, String.append_assoc,
        ← String.append_assoc acc s a]
      exact ih ((acc ++ s) ++ a)

theorem intercalate_cons_cons (s a b : String) (l : List String) :
    String.intercalate s (a :: b :: l) = a ++ s ++ String.intercalate s (b :: l) := by
  show String.intercalate.go a s (b :: l) = (a ++ s) ++ String.intercalate.go b s l
  show String.intercalate.go ((a ++ s) ++ b) s l = _
  exact intercalate_go_append (a ++ s) b s l

/-- An optional parameter's fragment group: nothing when absent, the flag and
its companion value when present. -/
def optFrag (flag : String) : Option String → List String
  | none => []
  | some v => [flag, v]

theorem count_optFrag (flag x : String) (o : Option String)
    (h1 : flag ≠ x) (h2 : o ≠ some x) : (optFrag flag o).count x = 0 := by
  cases o with
  | none => rfl
  | some v =>
      have hv : v ≠ x := fun hh => h2 (by rw [hh])
      simp [optFrag, List.count_cons, Ne.symm h1, Ne.symm hv]

theorem javacArgs_eq (files : List String) (destdir encoding target : Option String)
    (classpath : List String) (bootclasspath : Option String) (debug : Bool) :
    javacArgs files destdir encoding target classpath bootclasspath debug
      = optFrag "-encoding" encoding ++ optFrag "-target" target
        ++ optFrag "-source" target ++ optFrag "-d" destdir
        ++ (if classpath.isEmpty then []
            else ["-classpath", String.intercalate ":" classpath])
        ++ optFrag "-bootclasspath" bootclasspath
        ++ [if debug then "-g" else "-g:none"] ++ files := by
  cases destdir <;> cases encoding <;> cases target <;> cases bootclasspath <;>
    cases hcp : classpath.isEmpty <;>
      simp [javacArgs, Program.extend_args, optFrag, hcp]

theorem mem_ite_extend {x : String} {c : Bool} {A : List String}
    {new : List (Option String)}
    (h : x ∈ (if c = true then Program.extend_args A new true else A)) :
    x ∈ A ∨ (c = true ∧ some x ∈ new) := by
  split at h
  case isTrue hc =>
    rcases mem_extend_args h with h | h
    · exact Or.inl h
    · exact Or.inr ⟨hc, h⟩
  case isFalse => exact Or.inl h

/-- Every string in the output of the `aapt` adapter is either the command
token, one of the adapter's fixed flag tokens, or one of the caller-supplied
input strings. -/
theorem mem_aaptArgs {x : String} (command : String)
    (manifest resource_dir asset_dir : Option String) (includes : List String)
    (apk_output r_output configurations rename_manifest_package : Option String)
    (overwrite_version_code overwrite_version_name : Option String)
    (make_dirs overwrite : Bool) (extra_args : List String)
    (h : x ∈ aaptArgs command manifest resource_dir asset_dir includes apk_output
      r_output configurations rename_manifest_package overwrite_version_code
      overwrite_version_name make_dirs overwrite extra_args) :
    x = command
      ∨ x ∈ (["-m", "-M", "-S", "-A", "-c", "--version-code",
          "--rename-manifest-package", "-I", "-F", "-J", "-f"] : List String)
      ∨ some x = manifest ∨ some x = resource_dir ∨ some x = asset_dir
      ∨ some x = configurations ∨ some x = overwrite_version_code
      ∨ some x = overwrite_version_name ∨ some x = rename_manifest_package
      ∨ some x = apk_output ∨ some x = r_output
      ∨ x ∈ includes ∨ x ∈ extra_args := by
  simp only [List.mem_cons, List.mem_singleton]
  unfold aaptArgs at h
  rcases mem_extend_args h with h | hx
  · -- peeled the extra_args extension
    rcases mem_extend_args h with h | hx
    · -- peeled `-f`
      rcases mem_extend_args h with h | hx
      · -- peeled `-J`
        rcases mem_extend_args h with h | hx
        · -- peeled `-F`
          rcases mem_foldl_extend _ _ _ h with h | ⟨i, hi, hxi⟩
          · -- peeled the `-I` loop
            rcases mem_extend_args h with h | hx
            · -- peeled `--rename-manifest-package`
              rcases mem_extend_args h with h | hx
              · -- peeled the `overwrite_version_name` extension
                rcases mem_ite_extend h with h | ⟨htr, hx⟩
                · -- peeled the `overwrite_version_code` branch
                  rcases mem_extend_args h with h | hx
                  · -- peeled `-c`
                    rcases mem_extend_args h with h | hx
                    · -- peeled `-A`
                      rcases mem_extend_args h with h | hx
                      · -- peeled `-S`
                        rcases mem_extend_args h with h | hx
                        · -- peeled `-M`
                          rcases mem_extend_args h with h | hx
                          · -- peeled `-m`: only the command token is left
                            simp at h
                            tauto
                          · simp at hx
                            tauto
                        · simp at hx
                          tauto
                      · simp at hx
                        tauto
                    · simp at hx
                      tauto
                  · simp at hx
                    tauto
                · have ho := truthyOpt_eq_some _ htr
                  simp at hx
                  rcases hx with hx | hx
                  · tauto
                  · have : some x = overwrite_version_code := by
                      rw [hx]; exact ho.symm
                    tauto
              · simp at hx
                tauto
            · simp at hx
              tauto
          · simp at hxi
            rcases hxi with hxi | hxi
            · tauto
            · have : x ∈ includes := by rw [hxi]; exact hi
              tauto
        · simp at hx
          tauto
      · simp at hx
        tauto
    · simp at hx
      tauto
  · simp at hx
    tauto

theorem containsChunk_extend_self (args : List String) (a b : String) :
    containsChunk (Program.extend_args args [some a, some b] true) [a, b] :=
  ⟨args, [], by simp [Program.extend_args]⟩

/-! ## Claim theorems -/

/-- C1: `Program.__call__` raises `ProgramFailedError` exactly when the child
exit code is nonzero; the failure carries the joined command-line string and
that exit code, and on exit code 0 the call returns the joined command-line
string (whatever the child wrote to its stdout/stderr, neither is part of the
success value). -/
theorem program_call_failure_iff (prog : Program) (arguments : List String)
    (env : Option (List (String × String))) (shell : Bool) (platform : String)
    (ambient : List (String × String)) (proc : ProcResult) :
    ((∃ e, (Program.call prog arguments env shell platform ambient proc).result
        = .error e) ↔ proc.returncode ≠ 0)
    ∧ (∀ e, (Program.call prog arguments env shell platform ambient proc).result
        = .error e →
        e.cmdline = String.intercalate " " (effectiveArgv prog arguments shell platform)
          ∧ e.returncode = proc.returncode)
    ∧ (proc.returncode = 0 →
        (Program.call prog arguments env shell platform ambient proc).result
          = .ok (String.intercalate " " (effectiveArgv prog arguments shell platform))) := by
  unfold Program.call
  by_cases h : proc.returncode = 0 <;>
    simp [h, ProgramFailedError.init]

/-- Witness for C1 at a concrete failing and a concrete succeeding child. -/
theorem program_call_failure_iff_witness :
    ((∃ e, (Program.call ⟨"aapt", none⟩ ["package"] none false "linux" []
        ⟨7, "ok", "boom"⟩).result = .error e) ↔ (7 : Int) ≠ 0)
    ∧ ((0 : Int) = 0 →
        (Program.call ⟨"aapt", none⟩ ["package"] none false "linux" []
          ⟨0, "ok", "boom"⟩).result
          = .ok (String.intercalate " "
              (effectiveArgv ⟨"aapt", none⟩ ["package"] false "linux"))) :=
  ⟨(program_call_failure_iff ⟨"aapt", none⟩ ["package"] none false "linux" []
      ⟨7, "ok", "boom"⟩).1,
   (program_call_failure_iff ⟨"aapt", none⟩ ["package"] none false "linux" []
      ⟨0, "ok", "boom"⟩).2.2⟩

/-- C2: on a nonzero exit code the raised `ProgramFailedError` has its stream
fields swapped relative to their names: the field named `stdout` holds the
child's stderr bytes and the field named `stderr` holds the child's stdout
bytes. -/
theorem program_call_stream_swap (prog : Program) (arguments : List String)
    (env : Option (List (String × String))) (shell : Bool) (platform : String)
    (ambient : List (String × String)) (proc : ProcResult)
    (h : proc.returncode ≠ 0) :
    ∃ e, (Program.call prog arguments env shell platform ambient proc).result
        = .error e
      ∧ e.stdout = some proc.stderr ∧ e.stderr = some proc.stdout := by
  unfold Program.call
  simp [h, ProgramFailedError.init]

/-- Witness for C2: exit code 7, `"ok"` on stdout, `"boom"` on stderr. -/
theorem program_call_stream_swap_witness :
    ∃ e, (Program.call ⟨"aapt", none⟩ ["package"] none false "linux" []
        ⟨7, "ok", "boom"⟩).result = .error e
      ∧ e.stdout = some "boom" ∧ e.stderr = some "ok" :=
  program_call_stream_swap ⟨"aapt", none⟩ ["package"] none false "linux" []
    ⟨7, "ok", "boom"⟩ (by decide)

/-- C3: `extend_args` appends the whole of `new` exactly when `new` holds no
`None` fragment and the condition is true, and otherwise returns `args`
unchanged; in every case the result is `args` followed by some (possibly
empty) suffix, so the only effect is appending. -/
theorem extend_args_spec (args : List String) (new : List (Option String))
    (condition : Bool) :
    (new.any (·.isNone) = false ∧ condition = true →
      Program.extend_args args new condition = args ++ new.filterMap id
        ∧ (new.filterMap id).length = new.length)
    ∧ (new.any (·.isNone) = true ∨ condition = false →
      Program.extend_args args new condition = args)
    ∧ (∀ l, new = l.map some → condition = true →
      Program.extend_args args new condition = args ++ l)
    ∧ ∃ t, Program.extend_args args new condition = args ++ t := by
  refine ⟨?_, ?_, ?_, extend_args_eq_append args new condition⟩
  · rintro ⟨h1, h2⟩
    subst h2
    exact ⟨by simp [Program.extend_args, h1],
      length_filterMap_id_of_no_none new h1⟩
  · rintro (h | h)
    · simp [Program.extend_args, h]
    · subst h
      simp [Program.extend_args]
  · rintro l rfl h2
    subst h2
    simp [Program.extend_args, List.filterMap_map]

/-- Witness for C3: a complete group is appended whole; a group with one
absent fragment is skipped entirely (no bare `-d` is emitted). -/
theorem extend_args_spec_witness :
    Program.extend_args ["p"] [some "-d", some "out"] true = ["p", "-d", "out"]
    ∧ Program.extend_args ["p"] [some "-d", none] true = ["p"]
    ∧ Program.extend_args ["p"] [some "-d", some "out"] false = ["p"] :=
  ⟨by
    have := (extend_args_spec ["p"] [some "-d", some "out"] true).2.2.1
      ["-d", "out"] rfl rfl
    simpa using this,
   (extend_args_spec ["p"] [some "-d", none] true).2.1 (Or.inl (by decide)),
   (extend_args_spec ["p"] [some "-d", some "out"] false).2.1 (Or.inr rfl)⟩

/-- C4: calling the `Dx` adapter with only the mandatory files and no output
does NOT produce `['--dex']` followed by the files: because the fragment is
built with `"--output=%s" % output` *before* `extend_args`'s `None` check, an
unsupplied `output` contributes the spurious fragment `"--output=None"`.  This
evaluates the code at the failing input. -/
theorem dx_no_output_emits_none_fragment :
    dxArgs ["a.class"] none = ["--dex", "--output=None", "a.class"]
      ∧ dxArgs ["a.class"] none ≠ ["--dex", "a.class"] := by
  constructor
  · rfl
  · decide

/-- C5 counterexample: in shell-wrapper mode on a non-Windows platform with
exit code 0, the returned string is `"/bin/sh e a"`, not
`executable ++ " " ++ fragments = "e a"` — the `/bin/sh` prefix is part of
the joined string because the join happens after the insert. -/
theorem program_call_shell_return_ce :
    (Program.call ⟨"e", none⟩ ["a"] none true "linux" [] ⟨0, "", ""⟩).result
      = .ok "/bin/sh e a"
    ∧ ("/bin/sh e a" : String) ≠ "e" ++ " " ++ "a" := by
  constructor
  · rfl
  · decide

/-- C5 (amended): on exit code 0 the returned string is the *launched* argv
joined by single spaces — the executable followed by the fragments, prefixed
by `/bin/sh` exactly when shell-wrapper mode is used off-Windows; when the
fragment list is nonempty the join is the head followed by a single space and
the joined tail. -/
theorem program_call_returns_joined_argv (prog : Program) (arguments : List String)
    (env : Option (List (String × String))) (shell : Bool) (platform : String)
    (ambient : List (String × String)) (proc : ProcResult)
    (h : proc.returncode = 0) :
    (Program.call prog arguments env shell platform ambient proc).result
      = .ok (String.intercalate " " (effectiveArgv prog arguments shell platform))
    ∧ (shell = true ∧ platform ≠ "win32" →
        effectiveArgv prog arguments shell platform
          = "/bin/sh" :: prog.executable :: arguments)
    ∧ (shell = false ∨ platform = "win32" →
        effectiveArgv prog arguments shell platform
          = prog.executable :: arguments)
    ∧ (∀ a as, arguments = a :: as →
        String.intercalate " " (prog.executable :: arguments)
          = prog.executable ++ " " ++ String.intercalate " " arguments) := by
  refine ⟨?_, ?_, ?_, ?_⟩
  · unfold Program.call
    simp [h]
  · rintro ⟨h1, h2⟩
    subst h1
    have hb : (platform == "win32") = false := beq_eq_false_iff_ne.2 h2
    simp [effectiveArgv, hb]
  · rintro (h1 | h1) <;> subst h1 <;> simp [effectiveArgv]
  · rintro a as rfl
    exact intercalate_cons_cons " " prog.executable a as

/-- Witness for C5 (amended) in both execution modes. -/
theorem program_call_returns_joined_argv_witness :
    (Program.call ⟨"e", none⟩ ["a"] none true "linux" [] ⟨0, "", ""⟩).result
      = .ok (String.intercalate " " (effectiveArgv ⟨"e", none⟩ ["a"] true "linux"))
    ∧ effectiveArgv ⟨"e", none⟩ ["a"] true "linux" = ["/bin/sh", "e", "a"]
    ∧ effectiveArgv ⟨"e", none⟩ ["a"] false "linux" = ["e", "a"]
    ∧ String.intercalate " " ["e", "a"] = "e" ++ " " ++ String.intercalate " " ["a"] :=
  ⟨(program_call_returns_joined_argv ⟨"e", none⟩ ["a"] none true "linux" []
      ⟨0, "", ""⟩ rfl).1,
   (program_call_returns_joined_argv ⟨"e", none⟩ ["a"] none true "linux" []
      ⟨0, "", ""⟩ rfl).2.1 ⟨rfl, by decide⟩,
   (program_call_returns_joined_argv ⟨"e", none⟩ ["a"] none false "linux" []
      ⟨0, "", ""⟩ rfl).2.2.1 (Or.inl rfl),
   (program_call_returns_joined_argv ⟨"e", none⟩ ["a"] none false "linux" []
      ⟨0, "", ""⟩ rfl).2.2.2 "a" [] rfl⟩

/-- C6: with `shell=True` on a non-Windows platform the launched argv is
`/bin/sh` prepended to the original argv (executable then fragments), and
`Popen` is asked for `shell=False`; on `win32`, `Popen` gets `shell=True`
regardless of the `shell` argument and `/bin/sh` is never prepended. -/
theorem program_call_shell_platform (prog : Program) (arguments : List String)
    (env : Option (List (String × String))) (shell : Bool) (platform : String)
    (ambient : List (String × String)) (proc : ProcResult) :
    (shell = true ∧ platform ≠ "win32" →
      (Program.call prog arguments env shell platform ambient proc).launch.argv
          = "/bin/sh" :: prog.executable :: arguments
        ∧ (Program.call prog arguments env shell platform ambient proc).launch.popenShell
          = false)
    ∧ (platform = "win32" →
      (Program.call prog arguments env shell platform ambient proc).launch.popenShell
          = true
        ∧ (Program.call prog arguments env shell platform ambient proc).launch.argv
          = prog.executable :: arguments) := by
  constructor
  · rintro ⟨h1, h2⟩
    subst h1
    have hb : (platform == "win32") = false := beq_eq_false_iff_ne.2 h2
    unfold Program.call effectiveArgv
    simp [hb]
  · intro h2
    subst h2
    unfold Program.call effectiveArgv
    simp

/-- Witness for C6 on `linux` and on `win32`. -/
theorem program_call_shell_platform_witness :
    ((Program.call ⟨"apkbuilder", none⟩ ["o.apk"] none true "linux" []
        ⟨0, "", ""⟩).launch.argv = ["/bin/sh", "apkbuilder", "o.apk"]
      ∧ (Program.call ⟨"apkbuilder", none⟩ ["o.apk"] none true "linux" []
        ⟨0, "", ""⟩).launch.popenShell = false)
    ∧ ((Program.call ⟨"apkbuilder", none⟩ ["o.apk"] none false "win32" []
        ⟨0, "", ""⟩).launch.popenShell = true
      ∧ (Program.call ⟨"apkbuilder", none⟩ ["o.apk"] none false "win32" []
        ⟨0, "", ""⟩).launch.argv = ["apkbuilder", "o.apk"]) :=
  ⟨(program_call_shell_platform ⟨"apkbuilder", none⟩ ["o.apk"] none true "linux"
      [] ⟨0, "", ""⟩).1 ⟨rfl, by decide⟩,
   (program_call_shell_platform ⟨"apkbuilder", none⟩ ["o.apk"] none false "win32"
      [] ⟨0, "", ""⟩).2 rfl⟩

/-- C7: the environment handed to the child equals the ambient process
environment updated with the overlay (the overlay winning on key conflicts),
and the ambient environment itself is unchanged by the call (only the copy is
updated). -/
theorem program_call_env_merge (prog : Program) (arguments : List String)
    (env : Option (List (String × String))) (shell : Bool) (platform : String)
    (ambient : List (String × String)) (proc : ProcResult)
    (hnd : ((env.getD []).map Prod.fst).Nodup) :
    (∀ k, dictGet
        (Program.call prog arguments env shell platform ambient proc).launch.env k
      = match dictGet (env.getD []) k with
        | some v => some v
        | none => dictGet ambient k)
    ∧ (Program.call prog arguments env shell platform ambient proc).ambientAfter
      = ambient := by
  refine ⟨fun k => ?_, rfl⟩
  show dictGet (dictUpdate ambient (env.getD [])) k = _
  exact dictGet_dictUpdate ambient (env.getD []) k hnd

/-- Witness for C7: overlay `PATH` wins over the ambient binding, ambient-only
keys survive, and the ambient environment is returned unmutated. -/
theorem program_call_env_merge_witness :
    dictGet (Program.call ⟨"e", none⟩ [] (some [("PATH", "new")]) false "linux"
        [("PATH", "old"), ("HOME", "h")] ⟨0, "", ""⟩).launch.env "PATH"
      = some "new"
    ∧ dictGet (Program.call ⟨"e", none⟩ [] (some [("PATH", "new")]) false "linux"
        [("PATH", "old"), ("HOME", "h")] ⟨0, "", ""⟩).launch.env "HOME"
      = some "h"
    ∧ (Program.call ⟨"e", none⟩ [] (some [("PATH", "new")]) false "linux"
        [("PATH", "old"), ("HOME", "h")] ⟨0, "", ""⟩).ambientAfter
      = [("PATH", "old"), ("HOME", "h")] := by
  have h := program_call_env_merge ⟨"e", none⟩ [] (some [("PATH", "new")]) false
    "linux" [("PATH", "old"), ("HOME", "h")] ⟨0, "", ""⟩ (by decide)
  refine ⟨?_, ?_, h.2⟩
  · rw [h.1 "PATH"]
    rfl
  · rw [h.1 "HOME"]
    rfl

/-- C8 counterexample: the `javac` classpath is joined with the literal `":"`
regardless of platform; on `win32` the platform path separator is `";"`, so
the emitted companion value `"a:b"` is not the elements joined with the
platform path separator (`"a;b"`). -/
theorem javac_classpath_separator_ce :
    javacArgs ["f.java"] none none none ["a", "b"] none false
      = ["-classpath", "a:b", "-g:none", "f.java"]
    ∧ String.intercalate (os_pathsep "win32") ["a", "b"] = "a;b"
    ∧ ("a:b" : String) ≠ "a;b" := by
  refine ⟨rfl, rfl, by decide⟩

/-- C8 (amended): for a nonempty classpath (whose strings do not themselves
collide with the `-classpath` token) the argument list contains the flag
`-classpath` exactly once, and it is immediately followed by the single
companion value obtained by joining the list's elements with `":"` — the
POSIX path separator, used on every platform. -/
theorem javac_classpath_spec (files : List String)
    (destdir encoding target : Option String) (classpath : List String)
    (bootclasspath : Option String) (debug : Bool)
    (hne : classpath ≠ [])
    (hf : "-classpath" ∉ files)
    (hd : destdir ≠ some "-classpath") (he : encoding ≠ some "-classpath")
    (ht : target ≠ some "-classpath") (hb : bootclasspath ≠ some "-classpath")
    (hj : String.intercalate ":" classpath ≠ "-classpath") :
    (javacArgs files destdir encoding target classpath bootclasspath debug).count
        "-classpath" = 1
    ∧ ∃ pre post,
        javacArgs files destdir encoding target classpath bootclasspath debug
          = pre ++ ["-classpath", String.intercalate ":" classpath] ++ post := by
  rcases classpath with _ | ⟨c, cs⟩
  · exact absurd rfl hne
  constructor
  · rw [javacArgs_eq]
    simp only [List.count_append, List.isEmpty_cons, Bool.false_eq_true,
      if_false]
    rw [count_optFrag _ _ _ (by decide) he, count_optFrag _ _ _ (by decide) ht,
      count_optFrag _ _ _ (by decide) ht, count_optFrag _ _ _ (by decide) hd,
      count_optFrag _ _ _ (by decide) hb]
    have hj2 : (("-classpath" : String) == String.intercalate ":" (c :: cs)) = false :=
      beq_eq_false_iff_ne.2 (Ne.symm hj)
    cases debug <;>
      simp [List.count_cons, hj2, List.count_eq_zero.2 hf, hj]
  · refine ⟨optFrag "-encoding" encoding ++ optFrag "-target" target
        ++ optFrag "-source" target ++ optFrag "-d" destdir,
      optFrag "-bootclasspath" bootclasspath
        ++ [if debug then "-g" else "-g:none"] ++ files, ?_⟩
    rw [javacArgs_eq]
    simp [List.append_assoc]

/-- Witness for C8 (amended) with classpath `["a", "b", "c"]`: value `a:b:c`. -/
theorem javac_classpath_spec_witness :
    (javacArgs ["f.java"] none none none ["a", "b", "c"] none false).count
        "-classpath" = 1
    ∧ ∃ pre post, javacArgs ["f.java"] none none none ["a", "b", "c"] none false
        = pre ++ ["-classpath", String.intercalate ":" ["a", "b", "c"]] ++ post :=
  javac_classpath_spec ["f.java"] none none none ["a", "b", "c"] none false
    (by decide) (by decide) (by decide) (by decide) (by decide) (by decide)
    (by decide)

/-- C9 counterexample: the flag token `--version-name` CAN appear in the Aapt
argument list — it suffices to pass it through `extra_args`, which is
forwarded verbatim. -/
theorem aapt_version_name_ce :
    "--version-name" ∈ aaptArgs "package" none none none [] none none none none
      none (some "1.2") false false ["--version-name", "9"] := by
  decide

/-- C9 (amended): when `overwrite_version_name` is supplied, the fragment pair
`--version-code` followed by the supplied value appears in the argument list;
and the adapter itself never generates the token `--version-name` — whenever
no input string is literally `--version-name` (in particular no such
`extra_args` entry), the token is absent from the output. -/
theorem aapt_version_flags_spec (command : String)
    (manifest resource_dir asset_dir : Option String) (includes : List String)
    (apk_output r_output configurations rename_manifest_package : Option String)
    (overwrite_version_code overwrite_version_name : Option String)
    (make_dirs overwrite : Bool) (extra_args : List String)
    (hc : command ≠ "--version-name")
    (h1 : manifest ≠ some "--version-name")
    (h2 : resource_dir ≠ some "--version-name")
    (h3 : asset_dir ≠ some "--version-name")
    (h4 : configurations ≠ some "--version-name")
    (h5 : overwrite_version_code ≠ some "--version-name")
    (h6 : overwrite_version_name ≠ some "--version-name")
    (h7 : rename_manifest_package ≠ some "--version-name")
    (h8 : apk_output ≠ some "--version-name")
    (h9 : r_output ≠ some "--version-name")
    (h10 : "--version-name" ∉ includes) (h11 : "--version-name" ∉ extra_args) :
    "--version-name" ∉ aaptArgs command manifest resource_dir asset_dir includes
        apk_output r_output configurations rename_manifest_package
        overwrite_version_code overwrite_version_name make_dirs overwrite
        extra_args
    ∧ (∀ v, overwrite_version_name = some v →
        ∃ pre post, aaptArgs command manifest resource_dir asset_dir includes
            apk_output r_output configurations rename_manifest_package
            overwrite_version_code overwrite_version_name make_dirs overwrite
            extra_args
          = pre ++ ["--version-code", v] ++ post) := by
  constructor
  · intro hmem
    rcases mem_aaptArgs command manifest resource_dir asset_dir includes
        apk_output r_output configurations rename_manifest_package
        overwrite_version_code overwrite_version_name make_dirs overwrite
        extra_args hmem with
      hx | hx | hx | hx | hx | hx | hx | hx | hx | hx | hx | hx | hx
    · exact hc hx.symm
    · exact absurd hx (by decide)
    · exact h1 hx.symm
    · exact h2 hx.symm
    · exact h3 hx.symm
    · exact h4 hx.symm
    · exact h5 hx.symm
    · exact h6 hx.symm
    · exact h7 hx.symm
    · exact h8 hx.symm
    · exact h9 hx.symm
    · exact h10 hx
    · exact h11 hx
  · rintro v rfl
    show containsChunk (aaptArgs command manifest resource_dir asset_dir includes
      apk_output r_output configurations rename_manifest_package
      overwrite_version_code (some v) make_dirs overwrite extra_args)
      ["--version-code", v]
    unfold aaptArgs
    apply containsChunk_extend
    apply containsChunk_extend
    apply containsChunk_extend
    apply containsChunk_extend
    apply containsChunk_foldl
    apply containsChunk_extend
    exact containsChunk_extend_self _ _ _

/-- Witness for C9 (amended) at a concrete call. -/
theorem aapt_version_flags_spec_witness :
    "--version-name" ∉ aaptArgs "package" (some "M.xml") none none [] none none
        none none none (some "1.2") false false []
    ∧ ∃ pre post, aaptArgs "package" (some "M.xml") none none [] none none none
        none none (some "1.2") false false []
      = pre ++ ["--version-code", "1.2"] ++ post :=
  ⟨(aapt_version_flags_spec "package" (some "M.xml") none none [] none none none
      none none (some "1.2") false false [] (by decide) (by decide) (by decide)
      (by decide) (by decide) (by decide) (by decide) (by decide) (by decide)
      (by decide) (by decide) (by decide)).1,
   (aapt_version_flags_spec "package" (some "M.xml") none none [] none none none
      none none (some "1.2") false false [] (by decide) (by decide) (by decide)
      (by decide) (by decide) (by decide) (by decide) (by decide) (by decide)
      (by decide) (by decide) (by decide)).2 "1.2" rfl⟩

/-- C10: `ApkBuilder` called on an instance whose `framework` is the default
`None` fails with an `AttributeError` while building the `ANDROID_SDK_DIR`
overlay, before any process launch (the error case produces no launch
request); with a framework supplied, the launched environment maps
`ANDROID_SDK_DIR` to `framework.sdk_dir` (the overlay wins over any ambient
binding).  Every other adapter's behaviour is independent of the framework. -/
theorem apkbuilder_framework_spec (prog : Program) (outputfile : String)
    (dex : Option String) (zips source_dirs jar_paths native_dirs : List String)
    (platform : String) (ambient : List (String × String)) (proc : ProcResult) :
    (prog.framework = none →
      ApkBuilder.call prog outputfile dex zips source_dirs jar_paths native_dirs
          platform ambient proc
        = .error (.attributeError "NoneType object has no attribute sdk_dir"))
    ∧ (∀ fw, prog.framework = some fw →
      ∃ out, ApkBuilder.call prog outputfile dex zips source_dirs jar_paths
            native_dirs platform ambient proc = .ok out
        ∧ dictGet out.launch.env "ANDROID_SDK_DIR" = some fw.sdk_dir)
    ∧ (∀ (e : String) (f₁ f₂ : Option Framework) (command : String)
        (manifest resource_dir asset_dir : Option String) (includes : List String)
        (apk_output r_output configurations rename_manifest_package : Option String)
        (ovc ovn : Option String) (make_dirs overwrite : Bool)
        (extra_args : List String) (pl : String) (am : List (String × String))
        (pr : ProcResult),
        Aapt.call ⟨e, f₁⟩ command manifest resource_dir asset_dir includes
            apk_output r_output configurations rename_manifest_package ovc ovn
            make_dirs overwrite extra_args pl am pr
          = Aapt.call ⟨e, f₂⟩ command manifest resource_dir asset_dir includes
            apk_output r_output configurations rename_manifest_package ovc ovn
            make_dirs overwrite extra_args pl am pr)
    ∧ (∀ (e : String) (f₁ f₂ : Option Framework) (aidl_file : String)
        (preprocessed search_path output_folder : Option String) (pl : String)
        (am : List (String × String)) (pr : ProcResult),
        Aidl.call ⟨e, f₁⟩ aidl_file preprocessed search_path output_folder pl am pr
          = Aidl.call ⟨e, f₂⟩ aidl_file preprocessed search_path output_folder pl am pr)
    ∧ (∀ (e : String) (f₁ f₂ : Option Framework) (rd rg : Option String)
        (sf idirs : List String) (pl : String) (am : List (String × String))
        (pr : ProcResult),
        LlvmRs.call ⟨e, f₁⟩ rd rg sf idirs pl am pr
          = LlvmRs.call ⟨e, f₂⟩ rd rg sf idirs pl am pr)
    ∧ (∀ (e : String) (f₁ f₂ : Option Framework) (pp : Option String)
        (pl : String) (am : List (String × String)) (pr : ProcResult),
        NdkBuild.call ⟨e, f₁⟩ pp pl am pr = NdkBuild.call ⟨e, f₂⟩ pp pl am pr)
    ∧ (∀ (e : String) (f₁ f₂ : Option Framework) (pp : Option String)
        (pl : String) (am : List (String × String)) (pr : ProcResult),
        NdkClean.call ⟨e, f₁⟩ pp pl am pr = NdkClean.call ⟨e, f₂⟩ pp pl am pr)
    ∧ (∀ (e : String) (f₁ f₂ : Option Framework) (files : List String)
        (destdir encoding target : Option String) (classpath : List String)
        (bootclasspath : Option String) (debug : Bool) (pl : String)
        (am : List (String × String)) (pr : ProcResult),
        JavaC.call ⟨e, f₁⟩ files destdir encoding target classpath bootclasspath
            debug pl am pr
          = JavaC.call ⟨e, f₂⟩ files destdir encoding target classpath
            bootclasspath debug pl am pr)
    ∧ (∀ (e : String) (f₁ f₂ : Option Framework) (files : List String)
        (output : Option String) (pl : String) (am : List (String × String))
        (pr : ProcResult),
        Dx.call ⟨e, f₁⟩ files output pl am pr = Dx.call ⟨e, f₂⟩ files output pl am pr)
    ∧ (∀ (e : String) (f₁ f₂ : Option Framework) (jarfile keystore ka pw : String)
        (pl : String) (am : List (String × String)) (pr : ProcResult),
        JarSigner.call ⟨e, f₁⟩ jarfile keystore ka pw pl am pr
          = JarSigner.call ⟨e, f₂⟩ jarfile keystore ka pw pl am pr)
    ∧ (∀ (e : String) (f₁ f₂ : Option Framework) (infile outfile align : String)
        (force : Bool) (pl : String) (am : List (String × String))
        (pr : ProcResult),
        ZipAlign.call ⟨e, f₁⟩ infile outfile align force pl am pr
          = ZipAlign.call ⟨e, f₂⟩ infile outfile align force pl am pr) := by
  refine ⟨?_, ?_, ?_, ?_, ?_, ?_, ?_, ?_, ?_, ?_, ?_⟩
  · intro h
    unfold ApkBuilder.call
    rw [h]
  · intro fw h
    unfold ApkBuilder.call
    rw [h]
    refine ⟨_, rfl, ?_⟩
    show dictGet (dictUpdate ambient [("ANDROID_SDK_DIR", fw.sdk_dir)])
        "ANDROID_SDK_DIR" = some fw.sdk_dir
    rw [dictGet_dictUpdate _ _ _ (by simp)]
    simp [dictGet_cons]
  · intros; rfl
  · intros; rfl
  · intros; rfl
  · intros; rfl
  · intros; rfl
  · intros; rfl
  · intros; rfl
  · intros; rfl
  · intros; rfl

/-- Witness for C10: default framework errors; a supplied framework puts its
`sdk_dir` into the child environment. -/
theorem apkbuilder_framework_spec_witness :
    ApkBuilder.call ⟨"apkbuilder", none⟩ "out.apk" none [] [] [] [] "linux" []
        ⟨0, "", ""⟩
      = .error (.attributeError "NoneType object has no attribute sdk_dir")
    ∧ ∃ out, ApkBuilder.call ⟨"apkbuilder", some ⟨"/sdk"⟩⟩ "out.apk" none [] []
          [] [] "linux" [] ⟨0, "", ""⟩ = .ok out
        ∧ dictGet out.launch.env "ANDROID_SDK_DIR" = some "/sdk" :=
  ⟨(apkbuilder_framework_spec ⟨"apkbuilder", none⟩ "out.apk" none [] [] [] []
      "linux" [] ⟨0, "", ""⟩).1 rfl,
   (apkbuilder_framework_spec ⟨"apkbuilder", some ⟨"/sdk"⟩⟩ "out.apk" none [] []
      [] [] "linux" [] ⟨0, "", ""⟩).2.1 ⟨"/sdk"⟩ rfl⟩

end AndroidBuild
